import Mathlib

/-!
Shallow embedding of the API client module of the IC-Frontend repository
(the `api.ts`-equivalent file): the fetch-with-timeout-and-retry transport,
the `ApiError` error model, the four endpoint operations (`getHealth`,
`getStatus`, `analyzeDocument`, `searchUniversityReviews`) and the two
response normalizers (`mapApiResponseToFrontend` and the university-review
normalization inlined in `searchUniversityReviews`).

Modelling conventions:
 * JavaScript numbers are `Int` (counts, HTTP statuses) or `ℚ` (scores,
   ratings); strings are `String`.
 * A field that the code reads with optional-chaining or guards with
   truthiness is an `Option`; JavaScript truthiness for strings
   (`undefined`, `null` and `""` are falsy) is `jsTruthyStr`, and the
   `x || d` idiom is `jsOrStr` / `jsOrInt` / `jsOrRat`.
 * A field whose runtime value may fail an `Array.isArray` check is a
   `JsVal`: `undef` (absent or falsy), `nonArr` (truthy but not an array),
   or `arr l`.
 * Thrown JavaScript exceptions are the inductive `JsErr`: either an
   `ApiError` (message, numeric status; the optional raw-response payload
   the class also carries is never inspected by any property proved here
   and is not modelled) or a plain error with a `name` ("TypeError",
   "SyntaxError", "AbortError", "Error") and a message.  Fallible code
   returns `Except JsErr`.
 * The network is a `behavior : ℕ → Except JsErr (JsResponse α)` giving
   the outcome of each (0-indexed) fetch attempt; `JsResponse` carries the
   `ok` flag, the numeric status and the result of `response.json()`
   (`Except String α`, the error being a SyntaxError message).
 * `Math.random()` values are rationals in `[0, 1)` supplied as an
   explicit source, one per call site.
 * Wall-clock time (`new Date().toISOString()`) is an explicit `now`
   argument; the sleeps of the backoff loop are recorded in a trace of
   delays (in milliseconds) instead of actually waiting.
-/

/-- JavaScript `x || d` for a possibly-absent string: `undefined`, `null`
and `""` are falsy and yield the default. -/
def jsOrStr (o : Option String) (d : String) : String :=
  match o with
  | some s => if s = "" then d else s
  | none => d

/-- JavaScript `x || d` for a possibly-absent integer: absent and `0` are
falsy and yield the default. -/
def jsOrInt (o : Option Int) (d : Int) : Int :=
  match o with
  | some n => if n = 0 then d else n
  | none => d

/-- JavaScript `x || d` for a possibly-absent rational number: absent and
`0` are falsy and yield the default. -/
def jsOrRat (o : Option ℚ) (d : ℚ) : ℚ :=
  match o with
  | some q => if q = 0 then d else q
  | none => d

/-- JavaScript truthiness of a possibly-absent string field. -/
def jsTruthyStr (o : Option String) : Bool :=
  match o with
  | some s => !(s = "")
  | none => false

/-- Whether one character list starts with another. -/
def startsWithList : List Char → List Char → Bool
  | _, [] => true
  | [], _ :: _ => false
  | a :: s, b :: p => (a = b) && startsWithList s p

/-- Whether one character list occurs inside another. -/
def containsSub : List Char → List Char → Bool
  | [], p => p.isEmpty
  | s@(_ :: t), p => startsWithList s p || containsSub t p

/-- `String.prototype.includes`. -/
def jsIncludes (s pat : String) : Bool :=
  containsSub s.data pat.data

/-- `String.prototype.trim`: strip leading and trailing whitespace. -/
def jsTrim (s : String) : String :=
  ⟨((s.data.dropWhile Char.isWhitespace).reverse.dropWhile Char.isWhitespace).reverse⟩

/-- A thrown JavaScript exception: either the module's `ApiError`
(message and numeric status) or a built-in error identified by its
`name` and message. -/
inductive JsErr where
  | apiError (message : String) (status : Int)
  | jsError (name : String) (message : String)
  deriving DecidableEq

/-- An `ApiError`, i.e. not a generic failure. -/
def JsErr.isApi : JsErr → Prop
  | .apiError _ _ => True
  | .jsError _ _ => False

deriving instance DecidableEq for Except

/-- The observable part of a `fetch` `Response`: the `ok` flag, the
numeric HTTP status, and the outcome of `response.json()` (a parse
failure is a SyntaxError carrying a message). -/
structure JsResponse (α : Type) where
  ok : Bool
  status : Int
  json : Except String α
  deriving DecidableEq

/-- `try { body } catch (e) { throw handler(e) }`. -/
def tryCatchJs {α : Type} (t : Except JsErr α) (handler : JsErr → JsErr) :
    Except JsErr α :=
  match t with
  | .ok a => .ok a
  | .error e => .error (handler e)

/-- On the final attempt, `fetchWithTimeout` converts an `AbortError`
(the abort fired by the timeout) into a 408 `ApiError` whose message
quotes the timeout in seconds; any other failure propagates unchanged. -/
def convertFinal (timeoutMs : ℕ) (e : JsErr) : JsErr :=
  match e with
  | .jsError "AbortError" _ =>
      .apiError ("Request timeout after " ++ toString (timeoutMs / 1000) ++ " seconds") 408
  | _ => e

/-- The retry loop of `fetchWithTimeout`, at 0-indexed attempt `attempt`
with the given number of further attempts allowed.  Returns the final
outcome, the number of fetch calls made, and the list of backoff sleeps
performed (in ms): after a failed non-final attempt `a` the code sleeps
`2^a * 1000` ms before the next attempt. -/
def fetchGo {α : Type} (behavior : ℕ → Except JsErr (JsResponse α))
    (timeoutMs attempt : ℕ) :
    ℕ → Except JsErr (JsResponse α) × ℕ × List ℕ
  | 0 =>
    match behavior attempt with
    | .ok r => (.ok r, 1, [])
    | .error e => (.error (convertFinal timeoutMs e), 1, [])
  | n + 1 =>
    match behavior attempt with
    | .ok r => (.ok r, 1, [])
    | .error _ =>
      let rest := fetchGo behavior timeoutMs (attempt + 1) n
      (rest.1, rest.2.1 + 1, (2 ^ attempt * 1000) :: rest.2.2)

/-- `fetchWithTimeout(url, options, timeout, retries)`: up to
`retries + 1` attempts, exponential backoff between attempts, final
`AbortError` converted to a 408 `ApiError`.  The url/options are
abstracted into `behavior`. -/
def fetchWithTimeout {α : Type} (behavior : ℕ → Except JsErr (JsResponse α))
    (timeoutMs retries : ℕ) : Except JsErr (JsResponse α) × ℕ × List ℕ :=
  fetchGo behavior timeoutMs 0 retries

/-- `FETCH_TIMEOUT`: 30 s, for document analysis. -/
def FETCH_TIMEOUT : ℕ := 30000

/-- `UNIVERSITY_TIMEOUT`: 100 s, for university search. -/
def UNIVERSITY_TIMEOUT : ℕ := 100000

/-- `MAX_RETRIES`. -/
def MAX_RETRIES : ℕ := 2

/-- A runtime JSON field that the code may probe with `Array.isArray`:
absent-or-falsy, truthy-but-not-an-array, or an array. -/
inductive JsVal (α : Type) where
  | undef
  | nonArr
  | arr (l : List α)
  deriving DecidableEq

/-- A `NIRFRanking` record (passed through untouched). -/
structure NIRFRanking where
  ranking : Option Int
  category : Option String
  year : Option String
  verified : Option Bool
  note : Option String
  source : Option String
  source_url : Option String
  source_title : Option String
  deriving DecidableEq

/-- A `UniversityReview` record (passed through untouched). -/
structure UniversityReview where
  content : String
  rating : Option String
  source : Option String
  date : Option String
  author : Option String
  sentiment : Option String
  url : Option String
  platform : Option String
  review_type : Option String
  date_found : Option String
  complaints : Option (List String)
  relevance_score : Option ℚ
  deriving DecidableEq

/-- An entry of `common_complaints` / `common_praises`: the backend sends
either `{category, frequency}` records or bare strings. -/
inductive ComplaintEntry where
  | tagged (category : String) (frequency : Int)
  | plain (s : String)
  deriving DecidableEq

/-- A `ReviewSource` record (passed through untouched). -/
structure ReviewSource where
  title : String
  url : String
  reviews_count : Option Int
  type : Option String
  platform : Option String
  search_query : Option String
  deriving DecidableEq

/-- The raw `review_summary` object as parsed from the wire, every field
possibly absent. -/
structure RawReviewSummary where
  total_negative_reviews : Option Int
  total_positive_reviews : Option Int
  average_rating : Option ℚ
  common_complaints : Option (List ComplaintEntry)
  common_praises : Option (List ComplaintEntry)
  deriving DecidableEq

/-- The normalized `review_summary`: every field present. -/
structure ReviewSummary where
  total_negative_reviews : Int
  total_positive_reviews : Int
  average_rating : ℚ
  common_complaints : List ComplaintEntry
  common_praises : List ComplaintEntry
  deriving DecidableEq

/-- The `debug_info` record (passed through untouched). -/
structure DebugInfo where
  web_search_available : Bool
  search_attempts : Int
  errors : List String
  scraped_platforms : Option (List String)
  deriving DecidableEq

/-- The raw JSON body of a `/api/university-reviews` reply, as parsed:
every field may be absent, the collection fields may fail
`Array.isArray`.  `detail` is read only on the error path. -/
structure UniRespData where
  university_name : Option String
  nirf_ranking : Option NIRFRanking
  negative_reviews : JsVal UniversityReview
  positive_reviews : JsVal UniversityReview
  review_summary : Option RawReviewSummary
  sources : JsVal ReviewSource
  analysis_timestamp : Option String
  search_status : Option String
  error : Option String
  message : Option String
  suggestions : Option (List String)
  api_version : Option String
  search_method : Option String
  processing_time : Option ℚ
  debug_info : Option DebugInfo
  detail : Option String
  deriving DecidableEq

/-- The normalized `UniversityReviewsResponse` the client returns: every
collection field present. -/
structure UniversityReviewsResponse where
  university_name : String
  nirf_ranking : Option NIRFRanking
  negative_reviews : List UniversityReview
  positive_reviews : List UniversityReview
  review_summary : ReviewSummary
  sources : List ReviewSource
  analysis_timestamp : String
  search_status : String
  error : Option String
  message : Option String
  suggestions : Option (List String)
  api_version : Option String
  search_method : Option String
  processing_time : Option ℚ
  debug_info : Option DebugInfo
  deriving DecidableEq

/-- The request body of `searchUniversityReviews`. -/
structure UniSearchBody where
  university_name : String
  include_debug : Bool
  deriving DecidableEq

/-- Lines 430–462: the `normalizedResponse` object literal built from the
parsed body (`now` stands for `new Date().toISOString()`). -/
def normalizeUniResponse (universityName now : String) (d : UniRespData) :
    UniversityReviewsResponse :=
  { university_name := jsOrStr d.university_name universityName
    nirf_ranking := d.nirf_ranking
    negative_reviews :=
      match d.negative_reviews with
      | .arr l => l
      | _ => []
    positive_reviews :=
      match d.positive_reviews with
      | .arr l => l
      | _ => []
    review_summary :=
      { total_negative_reviews :=
          jsOrInt (d.review_summary.bind (·.total_negative_reviews)) 0
        total_positive_reviews :=
          jsOrInt (d.review_summary.bind (·.total_positive_reviews)) 0
        average_rating := jsOrRat (d.review_summary.bind (·.average_rating)) 0
        common_complaints :=
          (d.review_summary.bind (·.common_complaints)).getD []
        common_praises :=
          (d.review_summary.bind (·.common_praises)).getD [] }
    sources :=
      match d.sources with
      | .arr l => l
      | _ => []
    analysis_timestamp := jsOrStr d.analysis_timestamp now
    search_status := jsOrStr d.search_status "success"
    error := d.error
    message := d.message
    suggestions := d.suggestions
    api_version := d.api_version
    search_method := d.search_method
    processing_time := d.processing_time
    debug_info := d.debug_info }

/-- The `catch` block of `searchUniversityReviews` (lines 465–495):
re-raise `ApiError`s; any error whose message mentions "timeout" becomes
408; a `TypeError` mentioning "fetch" becomes status 0; a `SyntaxError`
becomes 500; anything else becomes 500 "Unexpected error". -/
def searchCatch (e : JsErr) : JsErr :=
  match e with
  | .apiError _ _ => e
  | .jsError nm msg =>
    if jsIncludes msg "timeout" then
      .apiError "University search timeout - please try again" 408
    else if nm = "TypeError" ∧ jsIncludes msg "fetch" then
      .apiError "Unable to connect to the server. Please check your internet connection." 0
    else if nm = "SyntaxError" then
      .apiError "Invalid response format from server" 500
    else
      .apiError ("Unexpected error: " ++ msg) 500

/-- The `try` block of `searchUniversityReviews` after validation
(lines 398–464): fetch, parse the JSON, raise an `ApiError` when the
HTTP status is not ok AND the body's `search_status` is not truthy,
otherwise return the normalized response.  Also returns the number of
fetch attempts made. -/
def searchBody (behavior : ℕ → Except JsErr (JsResponse UniRespData))
    (now universityName : String) :
    Except JsErr UniversityReviewsResponse × ℕ :=
  match fetchWithTimeout behavior UNIVERSITY_TIMEOUT MAX_RETRIES with
  | (.error e, n, _) => (.error e, n)
  | (.ok response, n, _) =>
    match response.json with
    | .error m => (.error (.jsError "SyntaxError" m), n)
    | .ok responseData =>
      if response.ok = false ∧ jsTruthyStr responseData.search_status = false then
        (.error (.apiError
          (jsOrStr responseData.detail
            (jsOrStr responseData.error
              ("Request failed with status " ++ toString response.status)))
          response.status), n)
      else
        (.ok (normalizeUniResponse universityName now responseData), n)

/-- `apiClient.searchUniversityReviews` (lines 382–496): validate the
name (empty after trimming, then raw length < 3) before any network
call, then run the try/catch body.  Returns the outcome, the number of
fetch attempts, and the request body sent (`none` when validation
short-circuits). -/
def searchUniversityReviews
    (behavior : ℕ → Except JsErr (JsResponse UniRespData))
    (now universityName : String) :
    Except JsErr UniversityReviewsResponse × ℕ × Option UniSearchBody :=
  if jsTrim universityName = "" then
    (.error (.apiError "University name is required" 400), 0, none)
  else if universityName.length < 3 then
    (.error (.apiError "University name must be at least 3 characters long" 400), 0, none)
  else
    let r := searchBody behavior now universityName
    (tryCatchJs r.1 searchCatch, r.2,
      some { university_name := jsTrim universityName, include_debug := false })

/-- A raw web-evidence record of a claim.  `url` and `relevance_score`
are typed as required on the wire but the code defends both with `||`,
so they are modelled as possibly absent. -/
structure WebEvidenceRaw where
  title : String
  url : Option String
  snippet : String
  source_type : String
  relevance_score : Option ℚ
  deriving DecidableEq

/-- The `metadata` record of a raw claim. -/
structure ApiMetadata where
  source : String
  source_chunk_id : Option Int
  claim_type : Option String
  extracted_value : Option String
  confidence : Option String
  analysis_method : Option String
  deriving DecidableEq

/-- A raw `ApiClaim`.  `category` and `verdict` are strings on the wire
(the code looks `verdict` up in tables with a default, so unknown values
are representable). -/
structure ApiClaim where
  claim_text : String
  category : String
  verdict : String
  evidence_summary : String
  verdict_reasoning : String
  source_context : String
  trustScore : Option ℚ
  web_evidence : JsVal WebEvidenceRaw
  metadata : ApiMetadata
  deriving DecidableEq

/-- The raw `summary` record of an analysis reply. -/
structure ApiSummary where
  total_claims : Int
  processing_time_seconds : ℚ
  document_name : String
  timestamp : String
  analysis_mode : Option String
  deriving DecidableEq

/-- The raw JSON body of a `/analyze` reply.  `detail` and `error` are
read only on the non-ok path. -/
structure ApiAnalysisResponse where
  summary : Option ApiSummary
  claims : JsVal ApiClaim
  detail : Option String
  error : Option String
  deriving DecidableEq

/-- A normalized `Evidence` entity. -/
structure Evidence where
  id : String
  text : String
  source : String
  url : String
  relevanceScore : ℚ
  deriving DecidableEq

/-- A normalized `Claim` entity. -/
structure Claim where
  id : String
  text : String
  category : String
  consistency : String
  trustScore : ℚ
  explanation : String
  evidence : List Evidence
  pageNumber : Option Int
  reviewStatus : Option String
  reviewNotes : Option String
  reviewReason : Option String
  deriving DecidableEq

/-- The normalized summary of an `AnalysisResult`. -/
structure AnalysisSummary where
  totalClaims : Int
  processingTime : ℚ
  documentName : String
  timestamp : String
  analysisMode : Option String
  deriving DecidableEq

/-- The normalized `AnalysisResult`. -/
structure AnalysisResult where
  summary : AnalysisSummary
  claims : List Claim
  deriving DecidableEq

/-- Lines 520–526: the `consistencyMap` table. -/
def consistencyMap (v : String) : Option String :=
  if v = "Confirmed" then some "Supported"
  else if v = "Supported" then some "Supported"
  else if v = "Contradicted" then some "Contradicted"
  else if v = "Unverifiable" then some "Unverifiable"
  else if v = "Unsupported" then some "Unsupported"
  else none

/-- Lines 534–540: the `trustScoreMap` table.  `r i` is the value of the
i-th `Math.random()` call of the object literal (evaluated top to
bottom); `Math.floor(Math.random() * 16) + 80` becomes
`⌊r 0 * 16⌋ + 80`, and so on. -/
def trustScoreMap (r : ℕ → ℚ) (v : String) : Option Int :=
  if v = "Confirmed" then some (⌊r 0 * 16⌋ + 80)
  else if v = "Supported" then some (⌊r 1 * 16⌋ + 75)
  else if v = "Contradicted" then some (⌊r 2 * 21⌋ + 10)
  else if v = "Unverifiable" then some (⌊r 3 * 21⌋ + 40)
  else if v = "Unsupported" then some (⌊r 4 * 21⌋ + 25)
  else none

/-- Lines 528–542: use the backend's `trustScore` if it is truthy
(nonzero), otherwise `trustScoreMap[verdict] || 50`. -/
def claimTrustScore (r : ℕ → ℚ) (c : ApiClaim) : ℚ :=
  match c.trustScore with
  | some q => if q = 0 then (jsOrInt (trustScoreMap r c.verdict) 50 : ℚ) else q
  | none => (jsOrInt (trustScoreMap r c.verdict) 50 : ℚ)

/-- Lines 558–564: one evidence entry built from a web-evidence record
(`webIndex` is `j`). -/
def webEvidenceItem (index j : ℕ) (w : WebEvidenceRaw) : Evidence :=
  { id := "evidence-" ++ toString index ++ "-web-" ++ toString j
    text := w.snippet
    source := w.title
    url := jsOrStr w.url "#"
    relevanceScore := jsOrRat w.relevance_score 75 }

/-- The `forEach` over `web_evidence.slice(0, 3)`, carrying the running
web index. -/
def webEvidenceList (index : ℕ) : ℕ → List WebEvidenceRaw → List Evidence
  | _, [] => []
  | j, w :: rest => webEvidenceItem index j w :: webEvidenceList index (j + 1) rest

/-- Lines 544–566: the evidence list of one claim — the entry built from
`evidence_summary` first, then at most three entries from
`web_evidence` when it is an array. -/
def claimEvidence (index : ℕ) (c : ApiClaim) : List Evidence :=
  ({ id := "evidence-" ++ toString index ++ "-1"
     text := c.evidence_summary
     source := c.metadata.source
     url := "#"
     relevanceScore := 85 } : Evidence) ::
  (match c.web_evidence with
   | .arr l => webEvidenceList index 0 (l.take 3)
   | _ => [])

/-- Lines 518–579: the object returned for one raw claim at position
`index`. -/
def mapClaim (r : ℕ → ℚ) (index : ℕ) (c : ApiClaim) : Claim :=
  { id := "claim-" ++ toString index
    text := c.claim_text
    category := c.category
    consistency := jsOrStr (consistencyMap c.verdict) "Unverifiable"
    trustScore := claimTrustScore r c
    explanation := c.verdict_reasoning
    evidence := claimEvidence index c
    pageNumber := some (jsOrInt c.metadata.source_chunk_id 0 + 1)
    reviewStatus := some "pending"
    reviewNotes := none
    reviewReason := none }

/-- `apiResponse.claims.map((apiClaim, index) => ...)`, threading the
index; `rand i` is the random source consumed by the claim at index
`i`. -/
def mapClaims (rand : ℕ → ℕ → ℚ) : ℕ → List ApiClaim → List Claim
  | _, [] => []
  | i, c :: rest => mapClaim (rand i) i c :: mapClaims rand (i + 1) rest

/-- `mapApiResponseToFrontend` (lines 500–591).  The input is already a
parsed object, so the `typeof !== "object"` guard is vacuous; a missing
(falsy) `summary`, then a missing or non-array `claims`, each throw a
plain `Error` (not an `ApiError`). -/
def mapApiResponseToFrontend (rand : ℕ → ℕ → ℚ)
    (apiResponse : ApiAnalysisResponse) : Except JsErr AnalysisResult :=
  match apiResponse.summary with
  | none => .error (.jsError "Error" "Invalid API response: Missing summary field")
  | some s =>
    match apiResponse.claims with
    | .arr l =>
      .ok { summary :=
              { totalClaims := s.total_claims
                processingTime := s.processing_time_seconds
                documentName := s.document_name
                timestamp := s.timestamp
                analysisMode := s.analysis_mode }
            claims := mapClaims rand 0 l }
    | _ => .error (.jsError "Error" "Invalid API response: Missing or invalid claims array")

/-- The `catch` block of `analyzeDocument` (lines 361–378): re-raise
`ApiError`s; any error whose message mentions "timeout" becomes 408;
everything else becomes 500. -/
def analyzeCatch (e : JsErr) : JsErr :=
  match e with
  | .apiError _ _ => e
  | .jsError _ msg =>
    if jsIncludes msg "timeout" then
      .apiError "Analysis timeout - please try with a smaller document" 408
    else
      .apiError ("Analysis failed: " ++ msg) 500

/-- The `try` block of `analyzeDocument` (lines 307–360).  The request
construction (file name, base64 content, inferred file type) only feeds
the network, which is abstracted into `behavior`, so it is not modelled.
On a non-ok response the error body is parsed with a `{}` fallback and
an `ApiError` with the backend's status is raised; on an ok response the
body is parsed (a parse failure raises a SyntaxError), then the
structure check `!summary || !claims` raises an `ApiError` 500;
otherwise the raw payload is returned. -/
def analyzeBody (behavior : ℕ → Except JsErr (JsResponse ApiAnalysisResponse)) :
    Except JsErr ApiAnalysisResponse :=
  match fetchWithTimeout behavior FETCH_TIMEOUT MAX_RETRIES with
  | (.error e, _, _) => .error e
  | (.ok response, _, _) =>
    if response.ok = false then
      let errorData := response.json.toOption
      .error (.apiError
        (jsOrStr (errorData.bind (·.detail))
          (jsOrStr (errorData.bind (·.error))
            ("Analysis failed with status " ++ toString response.status)))
        response.status)
    else
      match response.json with
      | .error m => .error (.jsError "SyntaxError" m)
      | .ok responseData =>
        if responseData.summary.isNone ∨ responseData.claims = JsVal.undef then
          .error (.apiError "Invalid response structure from backend" 500)
        else
          .ok responseData

/-- `apiClient.analyzeDocument` (lines 304–379). -/
def analyzeDocument (behavior : ℕ → Except JsErr (JsResponse ApiAnalysisResponse)) :
    Except JsErr ApiAnalysisResponse :=
  tryCatchJs (analyzeBody behavior) analyzeCatch

/-- The parsed body of `GET /`. -/
structure HealthData where
  message : String
  version : Option String
  deriving DecidableEq

/-- The parsed body of `GET /status`. -/
structure StatusData where
  status : String
  message : String
  analysis_mode : Option String
  endpoints : Option (List String)
  deriving DecidableEq

/-- The `try` block of `getHealth` (lines 258–270): fetch with a 5 s
timeout and 1 retry, raise an `ApiError` with the response status when
not ok, otherwise return the parsed body. -/
def getHealthBody (behavior : ℕ → Except JsErr (JsResponse HealthData)) :
    Except JsErr HealthData :=
  match fetchWithTimeout behavior 5000 1 with
  | (.error e, _, _) => .error e
  | (.ok response, _, _) =>
    if response.ok = false then
      .error (.apiError "Failed to connect to API" response.status)
    else
      match response.json with
      | .error m => .error (.jsError "SyntaxError" m)
      | .ok d => .ok d

/-- The `catch` block of `getHealth` (lines 271–274). -/
def healthCatch (e : JsErr) : JsErr :=
  match e with
  | .apiError _ _ => e
  | .jsError _ _ => .apiError "Cannot connect to backend server" 0

/-- `apiClient.getHealth` (lines 257–275). -/
def getHealth (behavior : ℕ → Except JsErr (JsResponse HealthData)) :
    Except JsErr HealthData :=
  tryCatchJs (getHealthBody behavior) healthCatch

/-- The `try` block of `getStatus` (lines 284–296). -/
def getStatusBody (behavior : ℕ → Except JsErr (JsResponse StatusData)) :
    Except JsErr StatusData :=
  match fetchWithTimeout behavior 5000 1 with
  | (.error e, _, _) => .error e
  | (.ok response, _, _) =>
    if response.ok = false then
      .error (.apiError "Failed to get server status" response.status)
    else
      match response.json with
      | .error m => .error (.jsError "SyntaxError" m)
      | .ok d => .ok d

/-- The `catch` block of `getStatus` (lines 297–300). -/
def statusCatch (e : JsErr) : JsErr :=
  match e with
  | .apiError _ _ => e
  | .jsError _ _ => .apiError "Cannot get server status" 0

/-- `apiClient.getStatus` (lines 277–301). -/
def getStatus (behavior : ℕ → Except JsErr (JsResponse StatusData)) :
    Except JsErr StatusData :=
  tryCatchJs (getStatusBody behavior) statusCatch

/-!  Supporting lemmas shared by the claim theorems. -/

theorem tryCatchJs_error {α : Type} {t : Except JsErr α} {h : JsErr → JsErr} {e : JsErr}
    (he : tryCatchJs t h = .error e) : ∃ f, t = .error f ∧ e = h f := by
  cases t with
  | ok a => simp [tryCatchJs] at he
  | error f =>
    refine ⟨f, rfl, ?_⟩
    simp [tryCatchJs] at he
    exact he.symm

theorem healthCatch_isApi (e : JsErr) : (healthCatch e).isApi := by
  cases e <;> simp [healthCatch, JsErr.isApi]

theorem statusCatch_isApi (e : JsErr) : (statusCatch e).isApi := by
  cases e <;> simp [statusCatch, JsErr.isApi]

theorem analyzeCatch_isApi (e : JsErr) : (analyzeCatch e).isApi := by
  cases e with
  | apiError m s => trivial
  | jsError n m =>
    by_cases h : jsIncludes m "timeout" = true <;> simp [analyzeCatch, JsErr.isApi, h]

theorem searchCatch_isApi (e : JsErr) : (searchCatch e).isApi := by
  cases e with
  | apiError m s => trivial
  | jsError n m =>
    by_cases h1 : jsIncludes m "timeout" = true <;>
      by_cases h2 : n = "TypeError" ∧ jsIncludes m "fetch" = true <;>
        by_cases h3 : n = "SyntaxError" <;>
          simp [searchCatch, JsErr.isApi, h1, h2, h3]

theorem mem_mapClaims {rand : ℕ → ℕ → ℚ} {c' : Claim} :
    ∀ {i : ℕ} {l : List ApiClaim}, c' ∈ mapClaims rand i l →
      ∃ i₀ c, c ∈ l ∧ c' = mapClaim (rand i₀) i₀ c := by
  intro i l
  induction l generalizing i with
  | nil => intro h; simp [mapClaims] at h
  | cons a t ih =>
    intro h
    rw [mapClaims] at h
    rcases List.mem_cons.1 h with h | h
    · exact ⟨i, a, List.mem_cons_self a t, h⟩
    · obtain ⟨i₀, c, hc, hc'⟩ := ih h
      exact ⟨i₀, c, List.mem_cons_of_mem a hc, hc'⟩

theorem mapClaims_length (rand : ℕ → ℕ → ℚ) :
    ∀ (i : ℕ) (l : List ApiClaim), (mapClaims rand i l).length = l.length := by
  intro i l
  induction l generalizing i with
  | nil => rfl
  | cons a t ih => simp [mapClaims, ih]

theorem mapClaims_get (rand : ℕ → ℕ → ℚ) :
    ∀ (l : List ApiClaim) (i k : ℕ) (h1 : k < (mapClaims rand i l).length) (h2 : k < l.length),
      (mapClaims rand i l).get ⟨k, h1⟩ = mapClaim (rand (i + k)) (i + k) (l.get ⟨k, h2⟩) := by
  intro l
  induction l with
  | nil => intro i k h1 h2; exact absurd h2 (by simp)
  | cons a t ih =>
    intro i k h1 h2
    cases k with
    | zero => rfl
    | succ k' =>
      have hk : i + (k' + 1) = (i + 1) + k' := by omega
      have h1' : k' < (mapClaims rand (i + 1) t).length := by
        rw [mapClaims_length]
        exact Nat.lt_of_succ_lt_succ h2
      have h2' : k' < t.length := Nat.lt_of_succ_lt_succ h2
      have := ih (i + 1) k' h1' h2'
      simp only [mapClaims, List.get, hk]
      exact this

theorem webEvidenceList_length (index : ℕ) :
    ∀ (j : ℕ) (l : List WebEvidenceRaw), (webEvidenceList index j l).length = l.length := by
  intro j l
  induction l generalizing j with
  | nil => rfl
  | cons a t ih => simp [webEvidenceList, ih]

theorem mem_webEvidenceList {index : ℕ} {e : Evidence} :
    ∀ {j : ℕ} {l : List WebEvidenceRaw}, e ∈ webEvidenceList index j l →
      ∃ w, w ∈ l ∧ ∃ j', e = webEvidenceItem index j' w := by
  intro j l
  induction l generalizing j with
  | nil => intro h; simp [webEvidenceList] at h
  | cons a t ih =>
    intro h
    rw [webEvidenceList] at h
    rcases List.mem_cons.1 h with h | h
    · exact ⟨a, List.mem_cons_self a t, j, h⟩
    · obtain ⟨w, hw, j', hj'⟩ := ih h
      exact ⟨w, List.mem_cons_of_mem a hw, j', hj'⟩

theorem floor_scaled_bounds {q : ℚ} (m : ℕ) (hm : 0 < m) (h0 : 0 ≤ q) (h1 : q < 1) :
    0 ≤ ⌊q * (m : ℚ)⌋ ∧ ⌊q * (m : ℚ)⌋ ≤ (m : ℤ) - 1 := by
  constructor
  · exact Int.floor_nonneg.2 (mul_nonneg h0 (by positivity))
  · have hq : q * (m : ℚ) < (m : ℚ) := by
      have : (0 : ℚ) < (m : ℚ) := by exact_mod_cast hm
      calc q * (m : ℚ) < 1 * (m : ℚ) := by exact mul_lt_mul_of_pos_right h1 this
        _ = (m : ℚ) := one_mul _
    have : ⌊q * (m : ℚ)⌋ < (m : ℤ) := Int.floor_lt.2 (by exact_mod_cast hq)
    omega

/-!  Concrete sample inputs used by witnesses and counterexamples. -/

/-- A random source that always returns 0 (a legal `Math.random` value). -/
def rzero : ℕ → ℚ := fun _ => 0

/-- A per-claim random source that always returns 0. -/
def rzero2 : ℕ → ℕ → ℚ := fun _ _ => 0

/-- A sample claim metadata record. -/
def sampleMetadata : ApiMetadata :=
  { source := "doc", source_chunk_id := some 0, claim_type := none,
    extracted_value := none, confidence := none, analysis_method := none }

/-- A sample raw claim with the given verdict, trust score and
web evidence. -/
def sampleClaim (v : String) (ts : Option ℚ) (web : JsVal WebEvidenceRaw) : ApiClaim :=
  { claim_text := "X", category := "Financial", verdict := v,
    evidence_summary := "E", verdict_reasoning := "R", source_context := "S",
    trustScore := ts, web_evidence := web, metadata := sampleMetadata }

/-- A sample raw summary record. -/
def sampleSummary : ApiSummary :=
  { total_claims := 1, processing_time_seconds := 2, document_name := "doc",
    timestamp := "ts", analysis_mode := none }

/-!  ## C3: verdict → consistency mapping -/

/-- **C3** (confirmed).  For every raw claim, the normalized
`Claim.consistency` is "Supported" when the raw verdict is "Confirmed"
or "Supported"; "Contradicted", "Unverifiable" and "Unsupported" map to
themselves; any verdict outside the five known values maps to
"Unverifiable"; and the result is always one of the four values
Supported / Contradicted / Unverifiable / Unsupported. -/
theorem claim_C3 (r : ℕ → ℚ) (index : ℕ) (c : ApiClaim) :
    ((c.verdict = "Confirmed" ∨ c.verdict = "Supported") →
      (mapClaim r index c).consistency = "Supported") ∧
    (c.verdict = "Contradicted" → (mapClaim r index c).consistency = "Contradicted") ∧
    (c.verdict = "Unverifiable" → (mapClaim r index c).consistency = "Unverifiable") ∧
    (c.verdict = "Unsupported" → (mapClaim r index c).consistency = "Unsupported") ∧
    (c.verdict ≠ "Confirmed" → c.verdict ≠ "Supported" → c.verdict ≠ "Contradicted" →
      c.verdict ≠ "Unverifiable" → c.verdict ≠ "Unsupported" →
      (mapClaim r index c).consistency = "Unverifiable") ∧
    ((mapClaim r index c).consistency = "Supported" ∨
      (mapClaim r index c).consistency = "Contradicted" ∨
      (mapClaim r index c).consistency = "Unverifiable" ∨
      (mapClaim r index c).consistency = "Unsupported") := by
  refine ⟨?_, ?_, ?_, ?_, ?_, ?_⟩
  · rintro (h | h) <;> simp [mapClaim, consistencyMap, jsOrStr, h]
  · intro h; simp [mapClaim, consistencyMap, jsOrStr, h]
  · intro h; simp [mapClaim, consistencyMap, jsOrStr, h]
  · intro h; simp [mapClaim, consistencyMap, jsOrStr, h]
  · intro h1 h2 h3 h4 h5; simp [mapClaim, consistencyMap, jsOrStr, h1, h2, h3, h4, h5]
  · by_cases h1 : c.verdict = "Confirmed" <;> by_cases h2 : c.verdict = "Supported" <;>
      by_cases h3 : c.verdict = "Contradicted" <;> by_cases h4 : c.verdict = "Unverifiable" <;>
        by_cases h5 : c.verdict = "Unsupported" <;>
          simp [mapClaim, consistencyMap, jsOrStr, h1, h2, h3, h4, h5]

/-- Witness for C3 at concrete inputs: a "Confirmed" verdict collapses
into "Supported" and the made-up verdict "Probable" defaults to
"Unverifiable". -/
theorem claim_C3_witness :
    (mapClaim rzero 0 (sampleClaim "Confirmed" none .undef)).consistency = "Supported" ∧
    (mapClaim rzero 0 (sampleClaim "Probable" none .undef)).consistency = "Unverifiable" :=
  ⟨(claim_C3 rzero 0 (sampleClaim "Confirmed" none .undef)).1 (Or.inl rfl),
   (claim_C3 rzero 0 (sampleClaim "Probable" none .undef)).2.2.2.2.1
     (by decide) (by decide) (by decide) (by decide) (by decide)⟩

/-!  ## C10: fixed initial review state -/

/-- **C10** (confirmed).  Every `Claim` produced by
`mapApiResponseToFrontend` has `reviewStatus` "pending" and leaves
`reviewNotes` and `reviewReason` unset, whatever the payload. -/
theorem claim_C10 (rand : ℕ → ℕ → ℚ) (resp : ApiAnalysisResponse) (res : AnalysisResult)
    (h : mapApiResponseToFrontend rand resp = .ok res) :
    ∀ c ∈ res.claims,
      c.reviewStatus = some "pending" ∧ c.reviewNotes = none ∧ c.reviewReason = none := by
  intro c hc
  unfold mapApiResponseToFrontend at h
  cases hs : resp.summary with
  | none => rw [hs] at h; cases h
  | some s =>
    rw [hs] at h
    cases hl : resp.claims with
    | undef => rw [hl] at h; cases h
    | nonArr => rw [hl] at h; cases h
    | arr l =>
      rw [hl] at h
      have hres : _ = res := Except.ok.inj h
      rw [← hres] at hc
      obtain ⟨i₀, c₀, _, hc'⟩ := mem_mapClaims hc
      rw [hc']
      exact ⟨rfl, rfl, rfl⟩

/-- A sample analysis payload with one claim, used by the C10 witness. -/
def respOne : ApiAnalysisResponse :=
  { summary := some sampleSummary,
    claims := .arr [sampleClaim "Probable" none .undef],
    detail := none, error := none }

/-- Witness for C10: the single claim normalized from `respOne` is
pending with no notes and no reason. -/
theorem claim_C10_witness :
    (mapClaim (rzero2 0) 0 (sampleClaim "Probable" none .undef)).reviewStatus = some "pending" ∧
    (mapClaim (rzero2 0) 0 (sampleClaim "Probable" none .undef)).reviewNotes = none ∧
    (mapClaim (rzero2 0) 0 (sampleClaim "Probable" none .undef)).reviewReason = none :=
  claim_C10 rzero2 respOne
    { summary := { totalClaims := 1, processingTime := 2, documentName := "doc",
                   timestamp := "ts", analysisMode := none },
      claims := mapClaims rzero2 0 [sampleClaim "Probable" none .undef] }
    rfl
    (mapClaim (rzero2 0) 0 (sampleClaim "Probable" none .undef))
    (by simp [mapClaims])

/-!  ## C8: university-name pre-validation and request body -/

/-- **C8** (confirmed).  `searchUniversityReviews` fails with an
`ApiError` of status 400 before issuing any network request (zero fetch
attempts, no request body sent) whenever the name is empty after
trimming or its length is below 3 characters; every name that passes
the check is sent as the trimmed `university_name` with
`include_debug = false`. -/
theorem claim_C8 (behavior : ℕ → Except JsErr (JsResponse UniRespData)) (now name : String) :
    ((jsTrim name = "" ∨ name.length < 3) →
      ∃ msg, searchUniversityReviews behavior now name =
        (.error (.apiError msg 400), 0, none)) ∧
    (¬(jsTrim name = "" ∨ name.length < 3) →
      (searchUniversityReviews behavior now name).2.2 =
        some { university_name := jsTrim name, include_debug := false }) := by
  constructor
  · rintro (h | h)
    · exact ⟨"University name is required", by simp [searchUniversityReviews, h]⟩
    · by_cases ht : jsTrim name = ""
      · exact ⟨"University name is required", by simp [searchUniversityReviews, ht]⟩
      · exact ⟨"University name must be at least 3 characters long",
          by simp [searchUniversityReviews, ht, h]⟩
  · intro h
    push_neg at h
    simp [searchUniversityReviews, h.1, Nat.not_lt.2 h.2]

/-- Witness for C8: the two-character name "ab" is rejected with a 400
`ApiError` and no fetch, while "MIT" passes and is sent trimmed with
`include_debug = false`. -/
theorem claim_C8_witness :
    (∃ msg, searchUniversityReviews (fun _ => .error (.jsError "TypeError" "Failed to fetch"))
        "2024" "ab" = (.error (.apiError msg 400), 0, none)) ∧
    (searchUniversityReviews (fun _ => .error (.jsError "TypeError" "Failed to fetch"))
        "2024" "MIT").2.2 = some { university_name := jsTrim "MIT", include_debug := false } :=
  ⟨(claim_C8 (fun _ => .error (.jsError "TypeError" "Failed to fetch")) "2024" "ab").1
      (Or.inr (by decide)),
   (claim_C8 (fun _ => .error (.jsError "TypeError" "Failed to fetch")) "2024" "MIT").2
      (by decide)⟩

/-!  ## C9: university-review normalization defaults -/

/-- **C9** (confirmed).  For every payload, the normalized
university-review result defaults every optional field:
`negative_reviews` / `positive_reviews` / `sources` become `[]` whenever
the raw field is not an array; the `review_summary` counts and rating
default to 0 and its complaint/praise lists to `[]` when the optional
chain finds nothing; `search_status` defaults to "success" and
`analysis_timestamp` to the current time when absent. -/
theorem claim_C9 (name now : String) (d : UniRespData) :
    ((∀ l, d.negative_reviews ≠ JsVal.arr l) →
      (normalizeUniResponse name now d).negative_reviews = []) ∧
    ((∀ l, d.positive_reviews ≠ JsVal.arr l) →
      (normalizeUniResponse name now d).positive_reviews = []) ∧
    ((∀ l, d.sources ≠ JsVal.arr l) →
      (normalizeUniResponse name now d).sources = []) ∧
    (d.review_summary.bind (·.total_negative_reviews) = none →
      (normalizeUniResponse name now d).review_summary.total_negative_reviews = 0) ∧
    (d.review_summary.bind (·.total_positive_reviews) = none →
      (normalizeUniResponse name now d).review_summary.total_positive_reviews = 0) ∧
    (d.review_summary.bind (·.average_rating) = none →
      (normalizeUniResponse name now d).review_summary.average_rating = 0) ∧
    (d.review_summary.bind (·.common_complaints) = none →
      (normalizeUniResponse name now d).review_summary.common_complaints = []) ∧
    (d.review_summary.bind (·.common_praises) = none →
      (normalizeUniResponse name now d).review_summary.common_praises = []) ∧
    (d.search_status = none →
      (normalizeUniResponse name now d).search_status = "success") ∧
    (d.analysis_timestamp = none →
      (normalizeUniResponse name now d).analysis_timestamp = now) := by
  refine ⟨?_, ?_, ?_, ?_, ?_, ?_, ?_, ?_, ?_, ?_⟩
  · intro h
    cases hv : d.negative_reviews with
    | arr l => exact absurd hv (h l)
    | undef => simp [normalizeUniResponse, hv]
    | nonArr => simp [normalizeUniResponse, hv]
  · intro h
    cases hv : d.positive_reviews with
    | arr l => exact absurd hv (h l)
    | undef => simp [normalizeUniResponse, hv]
    | nonArr => simp [normalizeUniResponse, hv]
  · intro h
    cases hv : d.sources with
    | arr l => exact absurd hv (h l)
    | undef => simp [normalizeUniResponse, hv]
    | nonArr => simp [normalizeUniResponse, hv]
  · intro h; simp [normalizeUniResponse, h, jsOrInt]
  · intro h; simp [normalizeUniResponse, h, jsOrInt]
  · intro h; simp [normalizeUniResponse, h, jsOrRat]
  · intro h; simp [normalizeUniResponse, h]
  · intro h; simp [normalizeUniResponse, h]
  · intro h; simp [normalizeUniResponse, h, jsOrStr]
  · intro h; simp [normalizeUniResponse, h, jsOrStr]

/-- A university-review payload with every field absent, used by the C9
witness. -/
def dAbsent : UniRespData :=
  { university_name := none, nirf_ranking := none, negative_reviews := .undef,
    positive_reviews := .undef, review_summary := none, sources := .nonArr,
    analysis_timestamp := none, search_status := none, error := none,
    message := none, suggestions := none, api_version := none,
    search_method := none, processing_time := none, debug_info := none,
    detail := none }

/-- Witness for C9 on `dAbsent`: every defaulted field of the
normalized result is the documented default. -/
theorem claim_C9_witness :
    (normalizeUniResponse "U" "2024" dAbsent).negative_reviews = [] ∧
    (normalizeUniResponse "U" "2024" dAbsent).positive_reviews = [] ∧
    (normalizeUniResponse "U" "2024" dAbsent).sources = [] ∧
    (normalizeUniResponse "U" "2024" dAbsent).review_summary.total_negative_reviews = 0 ∧
    (normalizeUniResponse "U" "2024" dAbsent).review_summary.average_rating = 0 ∧
    (normalizeUniResponse "U" "2024" dAbsent).review_summary.common_complaints = [] ∧
    (normalizeUniResponse "U" "2024" dAbsent).search_status = "success" ∧
    (normalizeUniResponse "U" "2024" dAbsent).analysis_timestamp = "2024" :=
  ⟨(claim_C9 "U" "2024" dAbsent).1 (by intro l; simp [dAbsent]),
   (claim_C9 "U" "2024" dAbsent).2.1 (by intro l; simp [dAbsent]),
   (claim_C9 "U" "2024" dAbsent).2.2.1 (by intro l; simp [dAbsent]),
   (claim_C9 "U" "2024" dAbsent).2.2.2.1 rfl,
   (claim_C9 "U" "2024" dAbsent).2.2.2.2.2.1 rfl,
   (claim_C9 "U" "2024" dAbsent).2.2.2.2.2.2.1 rfl,
   (claim_C9 "U" "2024" dAbsent).2.2.2.2.2.2.2.2.1 rfl,
   (claim_C9 "U" "2024" dAbsent).2.2.2.2.2.2.2.2.2 rfl⟩

/-!  ## C6: bounded retries with exponential backoff -/

theorem fetchGo_spec {α : Type} (b : ℕ → Except JsErr (JsResponse α)) (t : ℕ) :
    ∀ (n attempt : ℕ),
      1 ≤ (fetchGo b t attempt n).2.1 ∧ (fetchGo b t attempt n).2.1 ≤ n + 1 ∧
      (fetchGo b t attempt n).2.2 =
        (List.range ((fetchGo b t attempt n).2.1 - 1)).map
          (fun k => 2 ^ (attempt + k) * 1000) := by
  intro n
  induction n with
  | zero =>
    intro attempt
    cases hb : b attempt <;> simp [fetchGo, hb]
  | succ n ih =>
    intro attempt
    cases hb : b attempt with
    | ok r => simp [fetchGo, hb]
    | error e =>
      obtain ⟨h1, h2, h3⟩ := ih (attempt + 1)
      have hcnt : (fetchGo b t attempt (n + 1)).2.1 =
          (fetchGo b t (attempt + 1) n).2.1 + 1 := by
        simp [fetchGo, hb]
      have hdel : (fetchGo b t attempt (n + 1)).2.2 =
          (2 ^ attempt * 1000) :: (fetchGo b t (attempt + 1) n).2.2 := by
        simp [fetchGo, hb]
      refine ⟨by omega, by omega, ?_⟩
      rw [hdel, hcnt, h3]
      have hc : (fetchGo b t (attempt + 1) n).2.1 - 1 + 1 =
          (fetchGo b t (attempt + 1) n).2.1 + 1 - 1 := by omega
      rw [← hc, List.range_succ_eq_map]
      simp only [List.map_cons, List.map_map]
      have e1 : 2 ^ attempt * 1000 = 2 ^ (attempt + 0) * 1000 := by rw [Nat.add_zero]
      have e2 : List.map (fun k => 2 ^ (attempt + 1 + k) * 1000)
            (List.range ((fetchGo b t (attempt + 1) n).2.1 - 1)) =
          List.map ((fun k => 2 ^ (attempt + k) * 1000) ∘ Nat.succ)
            (List.range ((fetchGo b t (attempt + 1) n).2.1 - 1)) := by
        apply List.map_congr_left
        intro k _
        simp only [Function.comp_apply, Nat.succ_eq_add_one]
        have hk : attempt + 1 + k = attempt + (k + 1) := by omega
        rw [← hk]
      rw [e1, e2]

/-- The behavior of C6's concrete scenario: the server fails the first
two attempts (one timeout abort, one connection failure) and succeeds
on the third. -/
def serverFails2 : ℕ → Except JsErr (JsResponse HealthData) :=
  fun a =>
    if a = 0 then .error (.jsError "AbortError" "The user aborted a request.")
    else if a = 1 then .error (.jsError "TypeError" "Failed to fetch")
    else .ok { ok := true, status := 200,
               json := .ok { message := "Backend is running", version := some "1.0" } }

/-- **C6** (confirmed).  `fetchWithTimeout` with `retries = n` makes at
most `n + 1` fetch attempts, and the inter-attempt delays it sleeps are
exactly the exponential-backoff schedule: the k-th delay (0-indexed,
preceding the k-th retry attempt) is `2^k * 1000` ms, i.e. `2^(k-1)`
seconds before the k-th (1-indexed) retry.  In particular, with
`maxRetries = 2` and a server failing the first 2 attempts and
succeeding on the 3rd, the call succeeds after 3 attempts with exactly
the two delays 1 s and 2 s. -/
theorem claim_C6 :
    (∀ (α : Type) (b : ℕ → Except JsErr (JsResponse α)) (t n : ℕ),
      (fetchWithTimeout b t n).2.1 ≤ n + 1 ∧
      (fetchWithTimeout b t n).2.2 =
        (List.range ((fetchWithTimeout b t n).2.1 - 1)).map (fun k => 2 ^ k * 1000)) ∧
    fetchWithTimeout serverFails2 30000 2 =
      (.ok { ok := true, status := 200,
             json := .ok { message := "Backend is running", version := some "1.0" } },
       3, [1000, 2000]) := by
  constructor
  · intro α b t n
    obtain ⟨h1, h2, h3⟩ := fetchGo_spec b t n 0
    refine ⟨h2, ?_⟩
    unfold fetchWithTimeout
    rw [h3]
    apply List.map_congr_left
    intro k _
    rw [Nat.zero_add]
  · decide

/-!  ## C2: trust-score normalization -/

/-- The inclusive trust-score range documented for each verdict (a
degenerate range for unknown verdicts, whose score is the constant
50). -/
def verdictRange (v : String) : Int × Int :=
  if v = "Confirmed" then (80, 95)
  else if v = "Supported" then (75, 90)
  else if v = "Contradicted" then (10, 30)
  else if v = "Unverifiable" then (40, 60)
  else if v = "Unsupported" then (25, 45)
  else (50, 50)

/-- Counterexample to **C2** as stated: the raw claim supplies the
numeric trust score 0, yet the normalized trust score is 80 (the code
tests `apiClaim.trustScore && ...`, so the falsy score 0 is treated as
absent and replaced by the verdict-keyed synthesis). -/
theorem claim_C2_counterexample :
    (sampleClaim "Confirmed" (some 0) .undef).trustScore = some 0 ∧
    claimTrustScore rzero (sampleClaim "Confirmed" (some 0) .undef) = 80 ∧
    (80 : ℚ) ≠ 0 := by
  refine ⟨rfl, ?_, by norm_num⟩
  simp [claimTrustScore, trustScoreMap, sampleClaim, sampleMetadata, rzero, jsOrInt]

theorem floor16_bounds {q : ℚ} (h0 : 0 ≤ q) (h1 : q < 1) :
    0 ≤ ⌊q * (16 : ℚ)⌋ ∧ ⌊q * (16 : ℚ)⌋ ≤ 15 := by
  have := floor_scaled_bounds 16 (by norm_num) h0 h1
  push_cast at this
  omega

theorem floor21_bounds {q : ℚ} (h0 : 0 ≤ q) (h1 : q < 1) :
    0 ≤ ⌊q * (21 : ℚ)⌋ ∧ ⌊q * (21 : ℚ)⌋ ≤ 20 := by
  have := floor_scaled_bounds 21 (by norm_num) h0 h1
  push_cast at this
  omega

/-- **C2** (amended).  For every raw claim supplying a nonzero numeric
trustScore, the normalized trust score equals it exactly; a supplied
trustScore of 0 is treated like an absent one.  For every raw claim
whose trustScore is absent or 0, and for every value of the random
source in `[0,1)`, the normalized trust score lies in the verdict-keyed
inclusive range (Confirmed 80–95, Supported 75–90, Contradicted 10–30,
Unverifiable 40–60, Unsupported 25–45, and the degenerate range 50–50 —
i.e. exactly 50 — for verdicts outside the five known values). -/
theorem claim_C2_amended (r : ℕ → ℚ) (c : ApiClaim) (hr : ∀ i, 0 ≤ r i ∧ r i < 1) :
    (∀ q, c.trustScore = some q → q ≠ 0 → claimTrustScore r c = q) ∧
    ((c.trustScore = none ∨ c.trustScore = some 0) →
      (((verdictRange c.verdict).1 : ℚ) ≤ claimTrustScore r c ∧
        claimTrustScore r c ≤ ((verdictRange c.verdict).2 : ℚ))) := by
  have hsynth : ((verdictRange c.verdict).1 : ℤ) ≤ jsOrInt (trustScoreMap r c.verdict) 50 ∧
      jsOrInt (trustScoreMap r c.verdict) 50 ≤ (verdictRange c.verdict).2 := by
    by_cases h1 : c.verdict = "Confirmed"
    · obtain ⟨hf0, hf1⟩ := floor16_bounds (hr 0).1 (hr 0).2
      rw [h1]
      simp [trustScoreMap, verdictRange, jsOrInt]
      rw [if_neg (by omega)]
      omega
    · by_cases h2 : c.verdict = "Supported"
      · obtain ⟨hf0, hf1⟩ := floor16_bounds (hr 1).1 (hr 1).2
        rw [h2]
        simp [trustScoreMap, verdictRange, jsOrInt]
        rw [if_neg (by omega)]
        omega
      · by_cases h3 : c.verdict = "Contradicted"
        · obtain ⟨hf0, hf1⟩ := floor21_bounds (hr 2).1 (hr 2).2
          rw [h3]
          simp [trustScoreMap, verdictRange, jsOrInt]
          rw [if_neg (by omega)]
          omega
        · by_cases h4 : c.verdict = "Unverifiable"
          · obtain ⟨hf0, hf1⟩ := floor21_bounds (hr 3).1 (hr 3).2
            rw [h4]
            simp [trustScoreMap, verdictRange, jsOrInt]
            rw [if_neg (by omega)]
            omega
          · by_cases h5 : c.verdict = "Unsupported"
            · obtain ⟨hf0, hf1⟩ := floor21_bounds (hr 4).1 (hr 4).2
              rw [h5]
              simp [trustScoreMap, verdictRange, jsOrInt]
              rw [if_neg (by omega)]
              omega
            · simp [trustScoreMap, verdictRange, jsOrInt, h1, h2, h3, h4, h5]
  constructor
  · intro q hq hq0
    unfold claimTrustScore
    rw [hq]
    simp [hq0]
  · rintro (h | h)
    · unfold claimTrustScore
      rw [h]
      refine ⟨?_, ?_⟩
      · show ((verdictRange c.verdict).1 : ℚ) ≤ ((jsOrInt (trustScoreMap r c.verdict) 50 : ℤ) : ℚ)
        exact_mod_cast hsynth.1
      · show ((jsOrInt (trustScoreMap r c.verdict) 50 : ℤ) : ℚ) ≤ ((verdictRange c.verdict).2 : ℚ)
        exact_mod_cast hsynth.2
    · unfold claimTrustScore
      rw [h]
      refine ⟨?_, ?_⟩
      · show ((verdictRange c.verdict).1 : ℚ) ≤ ((jsOrInt (trustScoreMap r c.verdict) 50 : ℤ) : ℚ)
        exact_mod_cast hsynth.1
      · show ((jsOrInt (trustScoreMap r c.verdict) 50 : ℤ) : ℚ) ≤ ((verdictRange c.verdict).2 : ℚ)
        exact_mod_cast hsynth.2

/-- Witness for C2 (amended) at concrete inputs: a supplied nonzero
score 55 is used verbatim, and with the random source constantly 0 a
claim with verdict "Contradicted" and no score gets a score inside
10–30. -/
theorem claim_C2_witness :
    claimTrustScore rzero (sampleClaim "Confirmed" (some 55) .undef) = 55 ∧
    (((verdictRange "Contradicted").1 : ℚ) ≤
        claimTrustScore rzero (sampleClaim "Contradicted" none .undef) ∧
      claimTrustScore rzero (sampleClaim "Contradicted" none .undef) ≤
        ((verdictRange "Contradicted").2 : ℚ)) :=
  ⟨(claim_C2_amended rzero (sampleClaim "Confirmed" (some 55) .undef)
      (fun _ => ⟨le_refl 0, by norm_num [rzero]⟩)).1 55 rfl (by norm_num),
   (claim_C2_amended rzero (sampleClaim "Contradicted" none .undef)
      (fun _ => ⟨le_refl 0, by norm_num [rzero]⟩)).2 (Or.inl rfl)⟩

/-!  ## C1: university-search soft-failure promotion -/

/-- A 404 body whose `search_status` field is present but empty, used by
the C1 counterexample. -/
def dEmptyStatus : UniRespData :=
  { dAbsent with search_status := some "" }

/-- The HTTP 404 response carrying `dEmptyStatus`. -/
def resp404e : JsResponse UniRespData :=
  { ok := false, status := 404, json := .ok dEmptyStatus }

/-- Counterexample to **C1** as stated: the parsed 404 body *contains* a
`search_status` field (the empty string), yet the client raises an
`ApiError` — the code tests JavaScript truthiness
(`!responseData.search_status`), not field presence. -/
theorem claim_C1_counterexample :
    dEmptyStatus.search_status.isSome = true ∧
    (searchUniversityReviews (fun _ => .ok resp404e) "2024" "Harvard").1 =
      .error (.apiError "Request failed with status 404" 404) := by
  exact ⟨rfl, rfl⟩

/-- **C1** (amended).  For every valid university name and every non-2xx
reply whose parsed body carries a *non-empty* (truthy) `search_status`
string, the client returns a normal `UniversityReviewsResponse` whose
`search_status` is that value; it raises an `ApiError` carrying the
backend's status for a non-2xx reply exactly when the body's
`search_status` is absent or empty. -/
theorem claim_C1_amended (name now : String) (resp : JsResponse UniRespData) (d : UniRespData)
    (h1 : ¬ jsTrim name = "") (h2 : ¬ name.length < 3)
    (hj : resp.json = .ok d) (hok : resp.ok = false) :
    (∀ s, d.search_status = some s → s ≠ "" →
      (searchUniversityReviews (fun _ => .ok resp) now name).1 =
        .ok (normalizeUniResponse name now d) ∧
      (normalizeUniResponse name now d).search_status = s) ∧
    (jsTruthyStr d.search_status = false →
      (searchUniversityReviews (fun _ => .ok resp) now name).1 =
        .error (.apiError
          (jsOrStr d.detail (jsOrStr d.error
            ("Request failed with status " ++ toString resp.status)))
          resp.status)) := by
  have hfetch : fetchWithTimeout (fun _ => .ok resp) UNIVERSITY_TIMEOUT MAX_RETRIES =
      (.ok resp, 1, []) := rfl
  constructor
  · intro s hs hse
    have htr : jsTruthyStr d.search_status = true := by
      rw [hs]; simp [jsTruthyStr, hse]
    constructor
    · simp [searchUniversityReviews, h1, h2, searchBody, hfetch, hj, hok, htr, tryCatchJs]
    · simp [normalizeUniResponse, hs, jsOrStr, hse]
  · intro htr
    simp [searchUniversityReviews, h1, h2, searchBody, hfetch, hj, hok, htr, tryCatchJs,
      searchCatch]

/-- The 404 body of the spec's own example: `search_status`
"no_data_found". -/
def dNoData : UniRespData :=
  { dAbsent with search_status := some "no_data_found", university_name := some "X" }

/-- The HTTP 404 response carrying `dNoData`. -/
def resp404n : JsResponse UniRespData :=
  { ok := false, status := 404, json := .ok dNoData }

/-- Witness for C1 (amended): HTTP 404 with body
`\x7b search_status: "no_data_found", university_name: "X" \x7d` yields a
successful result whose `search_status` is "no_data_found". -/
theorem claim_C1_witness :
    (searchUniversityReviews (fun _ => .ok resp404n) "2024" "Harvard").1 =
      .ok (normalizeUniResponse "Harvard" "2024" dNoData) ∧
    (normalizeUniResponse "Harvard" "2024" dNoData).search_status = "no_data_found" :=
  (claim_C1_amended "Harvard" "2024" resp404n dNoData
      (by decide) (by decide) rfl rfl).1 "no_data_found" rfl (by decide)

/-!  ## C4: malformed analysis payloads -/

/-- A behavior whose every fetch attempt succeeds with HTTP 200 and the
given parsed body. -/
def okBehavior (d : ApiAnalysisResponse) :
    ℕ → Except JsErr (JsResponse ApiAnalysisResponse) :=
  fun _ => .ok { ok := true, status := 200, json := .ok d }

/-- The status code carried by a failure, if any (a plain `Error`
carries none). -/
def errStatus : JsErr → Option Int
  | .apiError _ s => some s
  | .jsError _ _ => none

/-- An analysis payload whose `claims` field is present and truthy but
not a sequence. -/
def respNonArrClaims : ApiAnalysisResponse :=
  { summary := some sampleSummary, claims := .nonArr, detail := none, error := none }

/-- An analysis payload with no `summary`. -/
def respNoSummary : ApiAnalysisResponse :=
  { summary := none, claims := .arr [], detail := none, error := none }

/-- Counterexample to **C4** as stated, in both halves: (i) a payload
whose `claims` is truthy but not a sequence is *accepted* unchanged by
`analyzeDocument`'s post-fetch validation (the code only tests
`!responseData.claims`, not `Array.isArray`); (ii) where
`mapApiResponseToFrontend` does reject (missing `summary`), it throws a
plain `Error` carrying no status at all, not a status-500 `ApiError`. -/
theorem claim_C4_counterexample :
    (∀ l, respNonArrClaims.claims ≠ JsVal.arr l) ∧
    analyzeDocument (okBehavior respNonArrClaims) = .ok respNonArrClaims ∧
    mapApiResponseToFrontend rzero2 respNoSummary =
      .error (.jsError "Error" "Invalid API response: Missing summary field") ∧
    errStatus (.jsError "Error" "Invalid API response: Missing summary field") = none := by
  refine ⟨?_, rfl, rfl, rfl⟩
  intro l h
  simp [respNonArrClaims] at h

/-- **C4** (amended).  `analyzeDocument`'s post-fetch validation rejects
with an `ApiError` of status 500 exactly the payloads whose `summary`
or `claims` field is missing (falsy), but does not detect a truthy
non-array `claims`; `mapApiResponseToFrontend` rejects payloads whose
`summary` is missing or whose `claims` is missing or not a sequence,
but by throwing a plain `Error` (no status code). -/
theorem claim_C4_amended (d : ApiAnalysisResponse) (rand : ℕ → ℕ → ℚ) :
    ((d.summary = none ∨ d.claims = JsVal.undef) →
      analyzeDocument (okBehavior d) =
        .error (.apiError "Invalid response structure from backend" 500)) ∧
    ((d.summary = none ∨ ∀ l, d.claims ≠ JsVal.arr l) →
      ∃ msg, mapApiResponseToFrontend rand d = .error (.jsError "Error" msg)) := by
  constructor
  · intro h
    have hfetch : fetchWithTimeout (okBehavior d) FETCH_TIMEOUT MAX_RETRIES =
        (.ok { ok := true, status := 200, json := .ok d }, 1, []) := rfl
    simp [analyzeDocument, analyzeBody, hfetch, tryCatchJs, analyzeCatch]
    rw [if_pos h]
  · intro h
    cases hs : d.summary with
    | none => exact ⟨"Invalid API response: Missing summary field",
        by simp [mapApiResponseToFrontend, hs]⟩
    | some s =>
      rcases h with h | h
      · rw [hs] at h; cases h
      · cases hc : d.claims with
        | arr l => exact absurd hc (h l)
        | undef => exact ⟨"Invalid API response: Missing or invalid claims array",
            by simp [mapApiResponseToFrontend, hs, hc]⟩
        | nonArr => exact ⟨"Invalid API response: Missing or invalid claims array",
            by simp [mapApiResponseToFrontend, hs, hc]⟩

/-- Witness for C4 (amended) on `respNoSummary`: `analyzeDocument`
rejects it with a status-500 `ApiError`, and
`mapApiResponseToFrontend` rejects it with a plain `Error`. -/
theorem claim_C4_witness :
    analyzeDocument (okBehavior respNoSummary) =
      .error (.apiError "Invalid response structure from backend" 500) ∧
    (∃ msg, mapApiResponseToFrontend rzero2 respNoSummary = .error (.jsError "Error" msg)) :=
  ⟨(claim_C4_amended respNoSummary rzero2).1 (Or.inl rfl),
   (claim_C4_amended respNoSummary rzero2).2 (Or.inl rfl)⟩

/-!  ## C5: shape of the normalized analysis result -/

/-- What C5 asserts of the evidence list of the claim normalized from
`rawc` at position `i`: non-empty, element 0 built from the raw
evidence summary (source = raw metadata source, relevance 85, url "#"),
then at most 3 web-evidence entries, each carrying its own relevance
score or the default 75. -/
def evidenceSpec (i : ℕ) (rawc : ApiClaim) (c' : Claim) : Prop :=
  c'.evidence ≠ [] ∧
  c'.evidence.head? = some
    { id := "evidence-" ++ toString i ++ "-1", text := rawc.evidence_summary,
      source := rawc.metadata.source, url := "#", relevanceScore := 85 } ∧
  c'.evidence.tail.length ≤ 3 ∧
  ∀ e ∈ c'.evidence.tail, ∃ w,
    (match rawc.web_evidence with
     | .arr l => w ∈ l.take 3
     | _ => False) ∧
    e.text = w.snippet ∧ e.source = w.title ∧
    (w.relevance_score = some e.relevanceScore ∨ e.relevanceScore = 75)

theorem mapClaim_evidenceSpec (r : ℕ → ℚ) (i : ℕ) (c : ApiClaim) :
    evidenceSpec i c (mapClaim r i c) := by
  refine ⟨by simp [mapClaim, claimEvidence], rfl, ?_, ?_⟩
  · show (claimEvidence i c).tail.length ≤ 3
    unfold claimEvidence
    cases c.web_evidence with
    | undef => simp
    | nonArr => simp
    | arr l =>
      simp only [List.tail_cons]
      rw [webEvidenceList_length]
      simp [List.length_take]
  · intro e he
    replace he : e ∈ (claimEvidence i c).tail := he
    unfold claimEvidence at he
    cases hw : c.web_evidence with
    | undef => rw [hw] at he; simp at he
    | nonArr => rw [hw] at he; simp at he
    | arr l =>
      rw [hw] at he
      simp only [List.tail_cons] at he
      obtain ⟨w, hwmem, j', hj'⟩ := mem_webEvidenceList he
      refine ⟨w, hwmem, ?_, ?_, ?_⟩
      · rw [hj']; rfl
      · rw [hj']; rfl
      · rw [hj']
        show w.relevance_score = some (jsOrRat w.relevance_score 75) ∨
          jsOrRat w.relevance_score 75 = 75
        cases hr : w.relevance_score with
        | none => exact Or.inr rfl
        | some q =>
          by_cases hq : q = 0
          · exact Or.inr (by simp [jsOrRat, hq])
          · exact Or.inl (by simp [jsOrRat, hq])

/-- **C5** (confirmed).  For every raw payload with a summary and a
claims array (possibly empty), `mapApiResponseToFrontend` succeeds,
yields exactly one normalized claim per raw claim, and each claim's
evidence satisfies `evidenceSpec` against its raw claim. -/
theorem claim_C5 (rand : ℕ → ℕ → ℚ) (resp : ApiAnalysisResponse)
    (s : ApiSummary) (l : List ApiClaim)
    (hs : resp.summary = some s) (hl : resp.claims = JsVal.arr l) :
    ∃ res, mapApiResponseToFrontend rand resp = .ok res ∧
      res.claims.length = l.length ∧
      ∀ (k : ℕ) (h1 : k < res.claims.length) (h2 : k < l.length),
        evidenceSpec k (l.get ⟨k, h2⟩) (res.claims.get ⟨k, h1⟩) := by
  refine ⟨{ summary :=
              { totalClaims := s.total_claims
                processingTime := s.processing_time_seconds
                documentName := s.document_name
                timestamp := s.timestamp
                analysisMode := s.analysis_mode }
            claims := mapClaims rand 0 l }, ?_, ?_, ?_⟩
  · simp [mapApiResponseToFrontend, hs, hl]
  · exact mapClaims_length rand 0 l
  · intro k h1 h2
    have hg := mapClaims_get rand l 0 k h1 h2
    simp only [Nat.zero_add] at hg
    rw [hg]
    exact mapClaim_evidenceSpec (rand k) k (l.get ⟨k, h2⟩)

/-- A web-evidence record used by the C5 witness. -/
def sampleWeb (n : ℕ) (score : Option ℚ) : WebEvidenceRaw :=
  { title := "W" ++ toString n, url := some ("u" ++ toString n),
    snippet := "s" ++ toString n, source_type := "news", relevance_score := score }

/-- The payload of the C5 witness: one claim carrying four web-evidence
records (so the 3-element cap bites), one of which has no relevance
score. -/
def respEvidence : ApiAnalysisResponse :=
  { summary := some sampleSummary,
    claims := .arr [sampleClaim "Supported" (some 90)
      (.arr [sampleWeb 0 (some 88), sampleWeb 1 none, sampleWeb 2 (some 70), sampleWeb 3 (some 60)])],
    detail := none, error := none }

/-- Witness for C5 on `respEvidence`. -/
theorem claim_C5_witness :
    ∃ res, mapApiResponseToFrontend rzero2 respEvidence = .ok res ∧
      res.claims.length = [sampleClaim "Supported" (some 90)
        (.arr [sampleWeb 0 (some 88), sampleWeb 1 none, sampleWeb 2 (some 70),
               sampleWeb 3 (some 60)])].length ∧
      ∀ (k : ℕ) (h1 : k < res.claims.length)
        (h2 : k < [sampleClaim "Supported" (some 90)
          (.arr [sampleWeb 0 (some 88), sampleWeb 1 none, sampleWeb 2 (some 70),
                 sampleWeb 3 (some 60)])].length),
        evidenceSpec k
          ([sampleClaim "Supported" (some 90)
            (.arr [sampleWeb 0 (some 88), sampleWeb 1 none, sampleWeb 2 (some 70),
                   sampleWeb 3 (some 60)])].get ⟨k, h2⟩)
          (res.claims.get ⟨k, h1⟩) :=
  claim_C5 rzero2 respEvidence sampleSummary
    [sampleClaim "Supported" (some 90)
      (.arr [sampleWeb 0 (some 88), sampleWeb 1 none, sampleWeb 2 (some 70),
             sampleWeb 3 (some 60)])]
    rfl rfl

/-!  ## C7: error-model classification -/

/-- A no-connection transport behavior: every fetch attempt throws the
browser's `TypeError: Failed to fetch`. -/
def healthNoConnB : ℕ → Except JsErr (JsResponse HealthData) :=
  fun _ => .error (.jsError "TypeError" "Failed to fetch")

/-- No-connection behavior for the analyze endpoint. -/
def analyzeNoConnB : ℕ → Except JsErr (JsResponse ApiAnalysisResponse) :=
  fun _ => .error (.jsError "TypeError" "Failed to fetch")

/-- No-connection behavior for the university endpoint. -/
def uniNoConnB : ℕ → Except JsErr (JsResponse UniRespData) :=
  fun _ => .error (.jsError "TypeError" "Failed to fetch")

/-- A timeout behavior: every fetch attempt is aborted. -/
def analyzeAbortB : ℕ → Except JsErr (JsResponse ApiAnalysisResponse) :=
  fun _ => .error (.jsError "AbortError" "The user aborted a request.")

/-- Timeout behavior for the university endpoint. -/
def uniAbortB : ℕ → Except JsErr (JsResponse UniRespData) :=
  fun _ => .error (.jsError "AbortError" "The user aborted a request.")

/-- A backend-reported semantic failure: HTTP 422 with a `detail`
message. -/
def resp422 : JsResponse ApiAnalysisResponse :=
  { ok := false, status := 422,
    json := .ok { summary := none, claims := .undef, detail := some "Invalid file", error := none } }

/-- Counterexample to **C7** as stated: a no-connection transport
failure in `analyzeDocument` is raised as an `ApiError` with status 500
("Analysis failed: ..."), not the status 0 the taxonomy demands for
no-connection failures. -/
theorem claim_C7_counterexample :
    analyzeDocument analyzeNoConnB =
      .error (.apiError "Analysis failed: Failed to fetch" 500) ∧
    (500 : Int) ≠ 0 :=
  ⟨rfl, by decide⟩

/-- **C7** (amended).  Every failure raised by the four endpoint
operations is an `ApiError` — no operation raises a generic failure —
and the status codes classify failures as the taxonomy says (timeouts
408, pre-request client-input failures 400, backend status for
server-reported failures, 500 for structurally invalid bodies), with
one exception: only `getHealth`, `getStatus` and
`searchUniversityReviews` report no-connection transport failures as
status 0; `analyzeDocument` wraps them (like any other unrecognized
failure) with status 500. -/
theorem claim_C7_amended :
    (∀ (b : ℕ → Except JsErr (JsResponse HealthData)) (e : JsErr),
      getHealth b = .error e → e.isApi) ∧
    (∀ (b : ℕ → Except JsErr (JsResponse StatusData)) (e : JsErr),
      getStatus b = .error e → e.isApi) ∧
    (∀ (b : ℕ → Except JsErr (JsResponse ApiAnalysisResponse)) (e : JsErr),
      analyzeDocument b = .error e → e.isApi) ∧
    (∀ (b : ℕ → Except JsErr (JsResponse UniRespData)) (now name : String) (e : JsErr),
      (searchUniversityReviews b now name).1 = .error e → e.isApi) ∧
    getHealth healthNoConnB = .error (.apiError "Cannot connect to backend server" 0) ∧
    (searchUniversityReviews uniNoConnB "2024" "Harvard").1 =
      .error (.apiError "Unable to connect to the server. Please check your internet connection." 0) ∧
    analyzeDocument analyzeNoConnB =
      .error (.apiError "Analysis failed: Failed to fetch" 500) ∧
    analyzeDocument analyzeAbortB =
      .error (.apiError "Request timeout after 30 seconds" 408) ∧
    (searchUniversityReviews uniAbortB "2024" "Harvard").1 =
      .error (.apiError "Request timeout after 100 seconds" 408) ∧
    searchUniversityReviews uniNoConnB "2024" "ab" =
      (.error (.apiError "University name must be at least 3 characters long" 400), 0, none) ∧
    analyzeDocument (fun _ => .ok resp422) = .error (.apiError "Invalid file" 422) ∧
    analyzeDocument (okBehavior respNoSummary) =
      .error (.apiError "Invalid response structure from backend" 500) := by
  refine ⟨?_, ?_, ?_, ?_, rfl, rfl, rfl, rfl, rfl, rfl, rfl, rfl⟩
  · intro b e h
    obtain ⟨f, _, hf⟩ := tryCatchJs_error h
    rw [hf]
    exact healthCatch_isApi f
  · intro b e h
    obtain ⟨f, _, hf⟩ := tryCatchJs_error h
    rw [hf]
    exact statusCatch_isApi f
  · intro b e h
    obtain ⟨f, _, hf⟩ := tryCatchJs_error h
    rw [hf]
    exact analyzeCatch_isApi f
  · intro b now name e h
    by_cases ht : jsTrim name = ""
    · simp [searchUniversityReviews, ht] at h
      rw [← h]
      trivial
    · by_cases hl : name.length < 3
      · simp [searchUniversityReviews, ht, hl] at h
        rw [← h]
        trivial
      · simp only [searchUniversityReviews, if_neg ht, if_neg hl] at h
        obtain ⟨f, _, hf⟩ := tryCatchJs_error h
        rw [hf]
        exact searchCatch_isApi f

/-- Witness for C7 (amended): the failure `getHealth` raises on a
no-connection behavior is an `ApiError`. -/
theorem claim_C7_witness :
    JsErr.isApi (.apiError "Cannot connect to backend server" 0) :=
  claim_C7_amended.1 healthNoConnB (.apiError "Cannot connect to backend server" 0) rfl
